import Mathlib

/-!
Verification of the Stat Resolution & Feature Derivation Engine of the
proppadia repository, as a shallow embedding in Lean 4.

JavaScript numbers are modelled as `JNum`: an exact rational for every finite
double, plus `nan`, `inf` (Infinity) and `ninf` (-Infinity).  Double rounding
and overflow to Infinity during arithmetic are not modelled (the stat values
here are small integers, exactly representable).  JavaScript values are
modelled as `JSVal`: undefined, null, number, string, boolean and plain
object (an association list of fields; keys built by the embedded code are
distinct, and `getField` takes the first match).  Arrays, functions, symbols
and objects with custom valueOf/toString are outside the model.  Reference
equality of two object literals is modelled as `false` (distinct references).
-/

inductive JNum where
  | fin (q : ℚ)
  | nan
  | inf
  | ninf
deriving DecidableEq, Repr

/-- JavaScript strict equality (===) on numbers: NaN is equal to nothing,
Infinity equals itself.  (+0 and -0 both map to the rational 0, and JS
treats them as === as well.) -/
def jnumEq : JNum → JNum → Bool
  | .fin a, .fin b => a == b
  | .inf, .inf => true
  | .ninf, .ninf => true
  | _, _ => false

/-- JavaScript > on numbers: any comparison involving NaN is false. -/
def jnumGT : JNum → JNum → Bool
  | .fin a, .fin b => a > b
  | .inf, .fin _ => true
  | .inf, .ninf => true
  | .fin _, .ninf => true
  | _, _ => false

/-- JavaScript < on numbers. -/
def jnumLT (a b : JNum) : Bool := jnumGT b a

/-- JavaScript + on two numbers. -/
def jnumAdd : JNum → JNum → JNum
  | .fin a, .fin b => .fin (a + b)
  | .nan, _ => .nan
  | _, .nan => .nan
  | .inf, .ninf => .nan
  | .ninf, .inf => .nan
  | .inf, _ => .inf
  | _, .inf => .inf
  | .ninf, _ => .ninf
  | _, .ninf => .ninf

/-- Division of a JS number by a positive integer count (used for averages). -/
def jnumDivNat (n : JNum) (k : ℕ) : JNum :=
  match n with
  | .fin q => .fin (q / k)
  | .nan => .nan
  | .inf => .inf
  | .ninf => .ninf

inductive JSVal where
  | undef
  | null
  | num (n : JNum)
  | str (s : String)
  | bool (b : Bool)
  | obj (fields : List (String × JSVal))
deriving Repr

mutual

def jsvalBEq : JSVal → JSVal → Bool
  | .undef, .undef => true
  | .null, .null => true
  | .num a, .num b => a == b
  | .str a, .str b => a == b
  | .bool a, .bool b => a == b
  | .obj a, .obj b => fieldsBEq a b
  | _, _ => false

def fieldsBEq : List (String × JSVal) → List (String × JSVal) → Bool
  | [], [] => true
  | (k, v) :: xs, (k2, v2) :: ys => k == k2 && jsvalBEq v v2 && fieldsBEq xs ys
  | _, _ => false

end

mutual

theorem jsvalBEq_refl : ∀ (a : JSVal), jsvalBEq a a = true
  | .undef => rfl
  | .null => rfl
  | .num a => by simp [jsvalBEq]
  | .str a => by simp [jsvalBEq]
  | .bool a => by simp [jsvalBEq]
  | .obj a => by simp [jsvalBEq, fieldsBEq_refl a]

theorem fieldsBEq_refl : ∀ (l : List (String × JSVal)), fieldsBEq l l = true
  | [] => rfl
  | (k, v) :: xs => by simp [fieldsBEq, jsvalBEq_refl v, fieldsBEq_refl xs]

end

mutual

theorem jsvalBEq_eq : ∀ {a b : JSVal}, jsvalBEq a b = true → a = b
  | .undef, .undef, _ => rfl
  | .null, .null, _ => rfl
  | .num a, .num b, h => by simp [jsvalBEq] at h; simp [h]
  | .str a, .str b, h => by simp [jsvalBEq] at h; simp [h]
  | .bool a, .bool b, h => by simp [jsvalBEq] at h; simp [h]
  | .obj a, .obj b, h => by
      simp only [jsvalBEq] at h
      have := fieldsBEq_eq (a := a) (b := b) h
      simp [this]
  | .undef, .null, h => by simp [jsvalBEq] at h
  | .undef, .num _, h => by simp [jsvalBEq] at h
  | .undef, .str _, h => by simp [jsvalBEq] at h
  | .undef, .bool _, h => by simp [jsvalBEq] at h
  | .undef, .obj _, h => by simp [jsvalBEq] at h
  | .null, .undef, h => by simp [jsvalBEq] at h
  | .null, .num _, h => by simp [jsvalBEq] at h
  | .null, .str _, h => by simp [jsvalBEq] at h
  | .null, .bool _, h => by simp [jsvalBEq] at h
  | .null, .obj _, h => by simp [jsvalBEq] at h
  | .num _, .undef, h => by simp [jsvalBEq] at h
  | .num _, .null, h => by simp [jsvalBEq] at h
  | .num _, .str _, h => by simp [jsvalBEq] at h
  | .num _, .bool _, h => by simp [jsvalBEq] at h
  | .num _, .obj _, h => by simp [jsvalBEq] at h
  | .str _, .undef, h => by simp [jsvalBEq] at h
  | .str _, .null, h => by simp [jsvalBEq] at h
  | .str _, .num _, h => by simp [jsvalBEq] at h
  | .str _, .bool _, h => by simp [jsvalBEq] at h
  | .str _, .obj _, h => by simp [jsvalBEq] at h
  | .bool _, .undef, h => by simp [jsvalBEq] at h
  | .bool _, .null, h => by simp [jsvalBEq] at h
  | .bool _, .num _, h => by simp [jsvalBEq] at h
  | .bool _, .str _, h => by simp [jsvalBEq] at h
  | .bool _, .obj _, h => by simp [jsvalBEq] at h
  | .obj _, .undef, h => by simp [jsvalBEq] at h
  | .obj _, .null, h => by simp [jsvalBEq] at h
  | .obj _, .num _, h => by simp [jsvalBEq] at h
  | .obj _, .str _, h => by simp [jsvalBEq] at h
  | .obj _, .bool _, h => by simp [jsvalBEq] at h

theorem fieldsBEq_eq : ∀ {a b : List (String × JSVal)}, fieldsBEq a b = true → a = b
  | [], [], _ => rfl
  | [], _ :: _, h => by simp [fieldsBEq] at h
  | _ :: _, [], h => by simp [fieldsBEq] at h
  | (k, v) :: xs, (k2, v2) :: ys, h => by
      simp only [fieldsBEq, Bool.and_eq_true, beq_iff_eq] at h
      have h1 := h.1.1
      have h2 := jsvalBEq_eq h.1.2
      have h3 := fieldsBEq_eq h.2
      simp [h1, h2, h3]

end

instance : DecidableEq JSVal := fun a b =>
  if h : jsvalBEq a b = true then .isTrue (jsvalBEq_eq h)
  else .isFalse (fun he => h (he ▸ jsvalBEq_refl a))

/-- JavaScript truthiness. -/
def truthy : JSVal → Bool
  | .undef => false
  | .null => false
  | .num (.fin q) => q != 0
  | .num .nan => false
  | .num .inf => true
  | .num .ninf => true
  | .str s => s != ""
  | .bool b => b
  | .obj _ => true

/-- Is the value of JS type "number" (NaN and Infinity included)? -/
def isNumber : JSVal → Bool
  | .num _ => true
  | _ => false

/-- Property read on an object (first matching key); `undefined` for a
missing key and for property reads on primitives.  Callers that can reach a
read on null or undefined (a TypeError in JS) use `jsGetThrow` instead. -/
def getField (v : JSVal) (k : String) : JSVal :=
  match v with
  | .obj fields =>
      match fields.find? (fun p => p.1 == k) with
      | some p => p.2
      | none => .undef
  | _ => JSVal.undef

/-- Plain property access `v.k`: throws (`none`) on null or undefined. -/
def jsGetThrow (v : JSVal) (k : String) : Option JSVal :=
  match v with
  | .undef => none
  | .null => none
  | _ => some (getField v k)

/-- Optional-chain access `v?.k`: undefined when `v` is nullish. -/
def optGet (v : JSVal) (k : String) : JSVal :=
  match v with
  | .undef => .undef
  | .null => .undef
  | _ => getField v k

/-- JavaScript `a || b`. -/
def jsOr (a b : JSVal) : JSVal := if truthy a then a else b

/-- JavaScript `a && b`. -/
def jsAnd (a b : JSVal) : JSVal := if truthy a then b else a

/-- JavaScript `a ?? b` (nullish coalescing). -/
def nullishD (a b : JSVal) : JSVal :=
  match a with
  | .undef => b
  | .null => b
  | _ => a

/-- Is the value null or undefined (loose `== null`)? -/
def isNullish : JSVal → Bool
  | .undef => true
  | .null => true
  | _ => false

/-- JavaScript strict equality (===).  Object comparison is reference
equality; two separately constructed literals are distinct references, so
the embedding returns false on objects. -/
def jsStrictEq : JSVal → JSVal → Bool
  | .undef, .undef => true
  | .null, .null => true
  | .num a, .num b => jnumEq a b
  | .str a, .str b => a == b
  | .bool a, .bool b => a == b
  | _, _ => false

/-- Lowercasing a string, modelling String.prototype.toLowerCase character
by character. -/
def lowerStr (s : String) : String := String.mk (s.data.map Char.toLower)

/-- Split a character list at every occurrence of the separator, modelling
String.prototype.split with a one-character separator. -/
def splitChars (sep : Char) : List Char → List (List Char)
  | [] => [[]]
  | c :: cs =>
      let rest := splitChars sep cs
      if c = sep then [] :: rest
      else
        match rest with
        | r :: rs => (c :: r) :: rs
        | [] => [[c]]

/-- Trim leading and trailing whitespace, modelling String.prototype and
Number()'s whitespace stripping. -/
def trimChars (cs : List Char) : List Char :=
  ((cs.dropWhile Char.isWhitespace).reverse.dropWhile Char.isWhitespace).reverse

/-- Digit run to a natural number; `none` if empty or any non-digit. -/
def parseNatDigits (cs : List Char) : Option ℕ :=
  if cs.isEmpty then none
  else cs.foldl
    (fun acc c => acc.bind fun n =>
      if c.isDigit then some (10 * n + (c.toNat - 48)) else none)
    (some 0)

/-- Mantissa of a JS numeric string: digits, optionally split by one dot. -/
def parseMantissa (s : List Char) : Option ℚ :=
  match splitChars '.' s with
  | [i] => (parseNatDigits i).map (fun n => (n : ℚ))
  | [i, f] =>
      if i.isEmpty && f.isEmpty then none
      else
        let ipart : Option ℚ :=
          if i.isEmpty then some 0
          else (parseNatDigits i).map (fun n => (n : ℚ))
        let fpart : Option ℚ :=
          if f.isEmpty then some 0
          else (parseNatDigits f).map
            (fun n => (n : ℚ) / (10 : ℚ) ^ f.length)
        match ipart, fpart with
        | some a, some b => some (a + b)
        | _, _ => none
  | _ => none

/-- Exponent part of a JS numeric string (after the e), with optional sign. -/
def parseExpPart (s : List Char) : Option ℤ :=
  match s with
  | '+' :: rest => (parseNatDigits rest).map (fun n => (n : ℤ))
  | '-' :: rest => (parseNatDigits rest).map (fun n => -(n : ℤ))
  | rest => (parseNatDigits rest).map (fun n => (n : ℤ))

/-- Unsigned body of a JS numeric string: mantissa with optional exponent. -/
def parseUnsigned (s : List Char) : Option ℚ :=
  let t := s.map fun c => if c = 'E' then 'e' else c
  match splitChars 'e' t with
  | [m] => parseMantissa m
  | [m, ex] =>
      match parseMantissa m, parseExpPart ex with
      | some q, some k => some (q * (10 : ℚ) ^ k)
      | _, _ => none
  | _ => none

/-- JavaScript Number() conversion of a string: trimmed; empty is 0; decimal
notation with optional sign, dot and exponent; signed Infinity; anything
else is NaN.  (Hex, octal and binary literal forms are not modelled.) -/
def jsStrToNum (s : String) : JNum :=
  let t := trimChars s.data
  if t.isEmpty then .fin 0
  else
    let sb : ℚ × List Char :=
      match t with
      | '+' :: rest => (1, rest)
      | '-' :: rest => (-1, rest)
      | _ => (1, t)
    if sb.2 = "Infinity".data then (if sb.1 = 1 then .inf else .ninf)
    else
      match parseUnsigned sb.2 with
      | some q => .fin (sb.1 * q)
      | none => .nan

/-- JavaScript Number() conversion of a value.  A plain object converts via
the string "[object Object]", hence NaN. -/
def toNumber (v : JSVal) : JNum :=
  match v with
  | .undef => .nan
  | .null => .fin 0
  | .num n => n
  | .bool b => .fin (if b then 1 else 0)
  | .str s => jsStrToNum s
  | .obj _ => .nan

/-- Decimal digits of the fractional part of a nonnegative rational below 1,
produced with fuel.  Every finite double has a terminating decimal
expansion, so for faithful inputs the fuel (40 digits of headroom for the
stat-sized values at hand) is not exhausted. -/
def fracDigits : ℕ → ℚ → List Char
  | 0, _ => []
  | fuel + 1, q =>
      if q = 0 then []
      else
        let d := (q * 10).floor.toNat
        Char.ofNat (48 + d) :: fracDigits fuel (q * 10 - (q * 10).floor)

/-- Decimal rendering of a nonnegative rational. -/
def ratToStringNN (q : ℚ) : String :=
  let i := q.floor.toNat
  let f := q - q.floor
  if f = 0 then toString i
  else toString i ++ "." ++ String.mk (fracDigits 40 f)

/-- Decimal rendering of a rational, modelling String() of a finite JS
number.  (JS switches to exponent form for very large or very small
magnitudes; that regime is not modelled and is not exercised by any theorem
below.) -/
def ratToString (q : ℚ) : String :=
  if q < 0 then "-" ++ ratToStringNN (-q) else ratToStringNN q

/-- String() of a JS number. -/
def jnumToString : JNum → String
  | .fin q => ratToString q
  | .nan => "NaN"
  | .inf => "Infinity"
  | .ninf => "-Infinity"

/-- JavaScript String() conversion of a value (plain objects stringify to
"[object Object]"). -/
def jsToString : JSVal → String
  | .undef => "undefined"
  | .null => "null"
  | .num n => jnumToString n
  | .str s => s
  | .bool b => if b then "true" else "false"
  | .obj _ => "[object Object]"

/-- JavaScript binary + as exercised by the embedded code: if either
operand is a string, or an operand is a plain object (which converts to the
string "[object Object]"), the result is string concatenation; otherwise
numeric addition. -/
def jsAdd (a b : JSVal) : JSVal :=
  match a, b with
  | .str sa, _ => .str (sa ++ jsToString b)
  | _, .str sb => .str (jsToString a ++ sb)
  | .obj _, _ => .str (jsToString a ++ jsToString b)
  | _, .obj _ => .str (jsToString a ++ jsToString b)
  | _, _ => .num (jnumAdd (toNumber a) (toNumber b))

/-- JavaScript unary negation on numbers. -/
def jnumNeg : JNum → JNum
  | .fin q => .fin (-q)
  | .nan => .nan
  | .inf => .ninf
  | .ninf => .inf

/-- JavaScript binary - (always numeric). -/
def jsSub (a b : JSVal) : JSVal :=
  .num (jnumAdd (toNumber a) (jnumNeg (toNumber b)))

/-!
backend/scripts/shared/propUtilsBackend.js
-/

/-- VALID_PROP_TYPES from propUtilsBackend.js. -/
def VALID_PROP_TYPES : List String :=
  ["hits", "strikeouts_batting", "home_runs", "rbis", "runs", "total_bases",
   "walks", "stolen_bases", "strikeouts_pitching", "outs_recorded",
   "earned_runs", "hits_allowed", "walks_allowed", "pitching_outs",
   "pitch_count", "runs_allowed", "singles", "doubles", "triples"]

/-- The tail of ipToOuts: null when the whole part is NaN (the
Number.isNaN guard), otherwise `whole * 3 + frac` — which propagates an
infinite whole part. -/
def ipOutsRes (whole : JNum) (frac : ℚ) : JSVal :=
  match whole with
  | .nan => .null
  | .fin q => .num (.fin (q * 3 + frac))
  | .inf => .num .inf
  | .ninf => .num .ninf

/-- ipToOuts from propUtilsBackend.js: innings pitched like "5.2" become
5*3 + 2 = 17 outs.  The input is stringified, split at the first dot, the
whole part is converted with Number() and rejected only if NaN, and the
fractional text contributes 1 or 2 only when it is exactly "1" or "2". -/
def ipToOuts (ip : JSVal) : JSVal :=
  match ip with
  | .undef => .null
  | .null => .null
  | _ =>
    let s := jsToString ip
    let parts := (splitChars '.' s.data).map String.mk
    let w := parts.headD ""
    let f := parts.getD 1 "0"
    let frac : ℚ := if f = "1" then 1 else if f = "2" then 2 else 0
    ipOutsRes (jsStrToNum w) frac

/-- num from propUtilsBackend.js: null/undefined give null; otherwise the
Number() conversion, kept only when finite. -/
def jsnum (x : JSVal) : JSVal :=
  match x with
  | .undef => .null
  | .null => .null
  | _ =>
      match toNumber x with
      | .fin q => .num (.fin q)
      | _ => .null

/-- The value of `num(v) ?? 0` (absent or non-finite addend treated as 0),
used by the composite cases of extractStatForPropType. -/
def numD0 (v : JSVal) : ℚ :=
  match jsnum v with
  | .num (.fin q) => q
  | _ => 0

/-- extractStatForPropType from propUtilsBackend.js.  The switch statement
is rendered as an equality chain on the prop type (cases that share a body
in the source share a disjunction here).  The batting-ish block `b` is
`stats.batting || stats.hitting || stats` and the pitching-ish block `p` is
`stats.pitching || stats`.  In the "singles" case the source's final
Number.isFinite guard always passes, since the four addends are finite by
construction; the rational subtraction here is therefore returned directly. -/
def extractStatForPropType (stats : JSVal) (propType : String) : JSVal :=
  match stats with
  | .obj _ =>
    let b := jsOr (getField stats "batting") (jsOr (getField stats "hitting") stats)
    let p := jsOr (getField stats "pitching") stats
    if propType = "hits" then jsnum (getField b "hits")
    else if propType = "strikeouts_batting" then
      jsnum (nullishD (getField b "strikeOuts")
        (nullishD (getField b "strikeouts") (getField b "strikeouts_batting")))
    else if propType = "home_runs" then
      jsnum (nullishD (getField b "homeRuns") (getField b "home_runs"))
    else if propType = "rbis" then
      jsnum (nullishD (getField b "rbi") (getField b "rbis"))
    else if propType = "runs" ∨ propType = "runs_scored" then
      jsnum (getField b "runs")
    else if propType = "walks" then
      jsnum (nullishD (getField b "baseOnBalls") (getField b "walks"))
    else if propType = "stolen_bases" then
      jsnum (nullishD (getField b "stolenBases") (getField b "stolen_bases"))
    else if propType = "doubles" then jsnum (getField b "doubles")
    else if propType = "triples" then jsnum (getField b "triples")
    else if propType = "total_bases" then
      jsnum (nullishD (getField b "totalBases") (getField b "total_bases"))
    else if propType = "singles" then
      let h := numD0 (getField b "hits")
      let d2 := numD0 (getField b "doubles")
      let d3 := numD0 (getField b "triples")
      let hr := numD0 (nullishD (getField b "homeRuns") (getField b "home_runs"))
      .num (.fin (h - d2 - d3 - hr))
    else if propType = "hits_runs_rbis" then
      let h := numD0 (getField b "hits")
      let r := numD0 (getField b "runs")
      let i := numD0 (nullishD (getField b "rbi") (getField b "rbis"))
      .num (.fin (h + r + i))
    else if propType = "runs_rbis" then
      let r := numD0 (getField b "runs")
      let i := numD0 (nullishD (getField b "rbi") (getField b "rbis"))
      .num (.fin (r + i))
    else if propType = "strikeouts_pitching" then
      jsnum (nullishD (getField p "strikeOuts")
        (nullishD (getField p "strikeouts") (getField p "strikeouts_pitching")))
    else if propType = "outs_recorded" ∨ propType = "pitching_outs" then
      nullishD (jsnum (getField p "outs")) (ipToOuts (getField p "inningsPitched"))
    else if propType = "earned_runs" then
      jsnum (nullishD (getField p "earnedRuns") (getField p "earned_runs"))
    else if propType = "hits_allowed" then
      jsnum (nullishD (getField p "hits") (getField p "hits_allowed"))
    else if propType = "walks_allowed" then
      jsnum (nullishD (getField p "baseOnBalls")
        (nullishD (getField p "walks_allowed") (getField p "walks")))
    else if propType = "pitch_count" then
      jsnum (nullishD (getField p "numberOfPitches")
        (nullishD (getField p "pitchesThrown") (getField p "pitches")))
    else if propType = "runs_allowed" then jsnum (getField p "runs")
    else .null
  | _ => .null

/-- getRollingAverage from propUtilsBackend.js (count-based): the first
windowSize entries of the given history array, mapped through
extractStatForPropType on each entry's `stats` field, keeping values of JS
type number; null when the prop type is falsy or no values remain.  Note
that this function never reads any date field of the rows. -/
def getRollingAverage (history : List JSVal) (propType : String)
    (windowSize : ℕ) : Option JNum :=
  if propType = "" then none
  else
    let recent := history.take windowSize
    let values := (recent.map
        (fun game => extractStatForPropType (optGet game "stats") propType)).filterMap
      (fun v => match v with | .num n => some n | _ => none)
    if values.length = 0 then none
    else some (jnumDivNat (values.foldl jnumAdd (.fin 0)) values.length)

/-- normalizePropType from propUtilsBackend.js: lowercase, strip
parentheses, and replace each whitespace run by one underscore. -/
def normalizePropType (label : String) : String :=
  let lowered := (label.data.map Char.toLower).filter (fun c => c ≠ '(' ∧ c ≠ ')')
  let collapsed := lowered.foldl
    (fun (acc : List Char × Bool) c =>
      if c.isWhitespace then
        (if acc.2 then acc.1 else acc.1 ++ ['_'], true)
      else (acc.1 ++ [c], false))
    ([], false)
  String.mk collapsed.1

/-- determineStatus from propUtilsBackend.js.  The direction is
`overUnder?.toLowerCase?.()`: undefined unless overUnder is a string. -/
def determineStatus (actual line overUnder : JSVal) : String :=
  let direction : JSVal :=
    match overUnder with
    | .str s => .str (lowerStr s)
    | _ => .undef
  if !isNumber actual || !isNumber line || !truthy direction then "invalid"
  else if jsStrictEq actual line then "push"
  else if (jsStrictEq direction (.str "over") && jnumGT (toNumber actual) (toNumber line))
       || (jsStrictEq direction (.str "under") && jnumLT (toNumber actual) (toNumber line)) then "win"
  else "loss"

/-!
backend/scripts/resolution/derivePropValue.js
-/

/-- The destructuring default `const { batting = {} } = stats || {}`: the
default applies only when the property is undefined (a null field stays
null). -/
def destructD (v : JSVal) : JSVal :=
  match v with
  | .undef => .obj []
  | _ => v

/-- derivePropValue from derivePropValue.js.  Result `none` models a thrown
TypeError (a plain field access on a null sub-block); `some v` is a normal
return, where the default switch branch is a bare `return;`, i.e.
undefined.  In the hits_runs_rbis case the source reads the addends with
optional chains and coalesces each to 0, returning null when none of the
three is of number type; the console logging there has no effect on the
value.  runs_rbis and singles use raw `+`/`-` on plain field reads. -/
def derivePropValue (propType : String) (stats : JSVal) : Option JSVal :=
  let st := jsOr stats (.obj [])
  let batting := destructD (getField st "batting")
  let pitching := destructD (getField st "pitching")
  if propType = "hits" then jsGetThrow batting "hits"
  else if propType = "runs" ∨ propType = "runs_scored" then jsGetThrow batting "runs"
  else if propType = "rbis" then jsGetThrow batting "rbi"
  else if propType = "home_runs" then jsGetThrow batting "homeRuns"
  else if propType = "stolen_bases" then jsGetThrow batting "stolenBases"
  else if propType = "walks" then jsGetThrow batting "baseOnBalls"
  else if propType = "strikeouts_batting" then jsGetThrow batting "strikeOuts"
  else if propType = "total_bases" then jsGetThrow batting "totalBases"
  else if propType = "hits_runs_rbis" then
    let hasBattingInputs :=
      isNumber (optGet batting "hits") || isNumber (optGet batting "runs")
        || isNumber (optGet batting "rbi")
    if !hasBattingInputs then some .null
    else
      let hits := nullishD (optGet batting "hits") (.num (.fin 0))
      let runs := nullishD (optGet batting "runs") (.num (.fin 0))
      let rbi := nullishD (optGet batting "rbi") (.num (.fin 0))
      some (jsAdd (jsAdd hits runs) rbi)
  else if propType = "runs_rbis" then
    match jsGetThrow batting "runs", jsGetThrow batting "rbi" with
    | some r, some i => some (jsAdd r i)
    | _, _ => none
  else if propType = "singles" then
    match jsGetThrow batting "hits", jsGetThrow batting "doubles",
          jsGetThrow batting "triples", jsGetThrow batting "homeRuns" with
    | some h, some d, some t, some hr => some (jsSub (jsSub (jsSub h d) t) hr)
    | _, _, _, _ => none
  else if propType = "doubles" then jsGetThrow batting "doubles"
  else if propType = "triples" then jsGetThrow batting "triples"
  else if propType = "strikeouts_pitching" then jsGetThrow pitching "strikeOuts"
  else if propType = "walks_allowed" then jsGetThrow pitching "baseOnBalls"
  else if propType = "hits_allowed" then jsGetThrow pitching "hits"
  else if propType = "earned_runs" then jsGetThrow pitching "earnedRuns"
  else if propType = "outs_recorded" then jsGetThrow pitching "outs"
  else some JSVal.undef

/-!
backend/scripts/resolution/statResolvers.js
-/

/-- Is the field of JS type number (the `typeof x.f === "number"` test used
throughout hasMeaningfulStats)? -/
def typeofNumField (o : JSVal) (k : String) : Bool := isNumber (getField o k)

/-- hasMeaningfulStats from statResolvers.js.  `none` models the TypeError
thrown when a destructured sub-block is null (its fields are then read with
plain accesses).  Both hasBatting and hasPitching are computed before the
return, so a null batting throws first, then a null pitching. -/
def hasMeaningfulStats (stats : JSVal) : Option Bool :=
  match stats with
  | .obj _ =>
    let batting := destructD (getField stats "batting")
    let pitching := destructD (getField stats "pitching")
    match batting, pitching with
    | .null, _ => none
    | _, .null => none
    | _, _ =>
      let hasBatting :=
        typeofNumField batting "hits" || typeofNumField batting "runs"
          || typeofNumField batting "rbi" || typeofNumField batting "totalBases"
          || typeofNumField batting "baseOnBalls" || typeofNumField batting "strikeOuts"
          || typeofNumField batting "homeRuns" || typeofNumField batting "doubles"
          || typeofNumField batting "triples" || typeofNumField batting "stolenBases"
      let hasPitching :=
        typeofNumField pitching "strikeOuts" || typeofNumField pitching "baseOnBalls"
          || typeofNumField pitching "hits" || typeofNumField pitching "earnedRuns"
          || typeofNumField pitching "outs"
      some (hasBatting || hasPitching)
  | _ => some false

/-!
backend/scripts/mlb/shared/playerUtilsBackend.js
-/

/-- Does some own value of the object satisfy
`typeof v === "number" && v > 0`?  Object.values of a truthy primitive
yields no number-typed values (a string enumerates its characters, which
are strings), so non-objects give false. -/
def somePosVals (v : JSVal) : Bool :=
  match v with
  | .obj fields => fields.any (fun p => match p.2 with
      | .num n => jnumGT n (.fin 0)
      | _ => false)
  | _ => false

/-- didPlayerParticipate from playerUtilsBackend.js.  The result is the raw
JS value of `hasBattingStats || hasPitchingStats`, where each operand is
`stats.batting && Object.values(stats.batting).some(...)` — so a missing
sub-block short-circuits to its own (nullish) value rather than false. -/
def didPlayerParticipate (stats : JSVal) : JSVal :=
  match stats with
  | .obj _ =>
    let hasBattingStats :=
      jsAnd (getField stats "batting") (.bool (somePosVals (getField stats "batting")))
    let hasPitchingStats :=
      jsAnd (getField stats "pitching") (.bool (somePosVals (getField stats "pitching")))
    jsOr hasBattingStats hasPitchingStats
  | _ => .bool false

/-- Assignment `o[k] = v` on an association-list object: overwrite the
first matching key or append. -/
def setF (fields : List (String × JSVal)) (k : String) (v : JSVal) :
    List (String × JSVal) :=
  if (fields.find? (fun p => p.1 == k)).isSome then
    fields.map (fun p => if p.1 == k then (k, v) else p)
  else fields ++ [(k, v)]

/-- Spread `{...v}`: the own fields of a plain object; primitives contribute
none. -/
def spreadFields (v : JSVal) : List (String × JSVal) :=
  match v with
  | .obj fields => fields.foldl (fun acc p => setF acc p.1 p.2) []
  | _ => []

/-- Object.assign(target, src) for a plain-object src; any other src
contributes nothing. -/
def assignFields (base : List (String × JSVal)) (src : JSVal) :
    List (String × JSVal) :=
  match src with
  | .obj fields => fields.foldl (fun acc p => setF acc p.1 p.2) base
  | _ => base

/-- Object.values of a value (plain objects only; otherwise empty). -/
def objValues (v : JSVal) : List JSVal :=
  match v with
  | .obj fields => fields.map (fun p => p.2)
  | _ => []

/-- getPlayerTeamFromBoxscoreData from playerUtilsBackend.js: scan home then
away players for one whose person.id is === the given player's person.id. -/
def getPlayerTeamFromBoxscoreData (player gameData : JSVal) : JSVal :=
  let homePlayers := jsOr (optGet (optGet (optGet gameData "teams") "home") "players") (.obj [])
  let awayPlayers := jsOr (optGet (optGet (optGet gameData "teams") "away") "players") (.obj [])
  let pid := optGet (optGet player "person") "id"
  if (objValues homePlayers).any
      (fun p => jsStrictEq (optGet (optGet p "person") "id") pid) then .str "home"
  else if (objValues awayPlayers).any
      (fun p => jsStrictEq (optGet (optGet p "person") "id") pid) then .str "away"
  else .null

/-- getTeamAbbreviationFromBoxscore from playerUtilsBackend.js. -/
def getTeamAbbreviationFromBoxscore (player gameData : JSVal) : JSVal :=
  let side := getPlayerTeamFromBoxscoreData player gameData
  if !truthy side then .null
  else
    match side with
    | .str s =>
        jsOr (optGet (optGet (optGet (optGet gameData "teams") s) "team") "abbreviation")
          (jsOr (optGet (optGet (optGet (optGet gameData "teams") s) "team") "triCode") .null)
    | _ => .null

/-- flattenPlayerBoxscore from playerUtilsBackend.js: spread
`boxscore?.stats || {}`, assign its pitching/batting/fielding/running
sub-blocks over it, then set player_id and team_abbr. -/
def flattenPlayerBoxscore (boxscore gameData : JSVal) : JSVal :=
  let stats := jsOr (optGet boxscore "stats") (.obj [])
  let f0 := spreadFields stats
  let f1 := if truthy (getField stats "pitching") then assignFields f0 (getField stats "pitching") else f0
  let f2 := if truthy (getField stats "batting") then assignFields f1 (getField stats "batting") else f1
  let f3 := if truthy (getField stats "fielding") then assignFields f2 (getField stats "fielding") else f2
  let f4 := if truthy (getField stats "running") then assignFields f3 (getField stats "running") else f3
  let f5 := setF f4 "player_id" (optGet (optGet boxscore "person") "id")
  let f6 := setF f5 "team_abbr" (getTeamAbbreviationFromBoxscore boxscore gameData)
  .obj f6

/-!
Play-by-play events.  A typed rendering of the play shape the code reads
through optional chains: `matchup.batter.id`, `matchup.pitcher.id`,
`result.eventType`, `result.rbi`, `result.awayScore`, `result.homeScore`,
`runners[i].details`, `count.outs`.  A missing path is `none`; the ids the
code compares against are ordinary numbers, so a play with a missing
matchup never matches.
-/

structure RunnerInfo where
  /-- Truthiness of `details.isScoringEvent`. -/
  isScoringEvent : Bool
  /-- `details.event`. -/
  event : Option String
deriving DecidableEq, Repr

structure PlayEvent where
  batterId : Option ℤ
  pitcherId : Option ℤ
  eventType : Option String
  rbi : Option ℚ
  awayScore : Option ℚ
  homeScore : Option ℚ
  runners : Option (List RunnerInfo)
  outs : Option ℚ
deriving DecidableEq, Repr

/-!
backend/scripts/shared/extractStatFromPlays.js
-/

/-- The `(o.k || 0) + d` incrementing pattern of extractStatFromPlays: the
current field (0 when absent or falsy) plus a delta, written back. -/
def bumpF (fields : List (String × JSVal)) (k : String) (d : ℚ) :
    List (String × JSVal) :=
  let cur : ℚ :=
    match (fields.find? (fun p => p.1 == k)).map Prod.snd with
    | some (.num (.fin q)) => if q = 0 then 0 else q
    | _ => 0
  setF fields k (.num (.fin (cur + d)))

/-- `play.result?.rbi || 1` (home-run case) on the typed play. -/
def rbiOr1 (p : PlayEvent) : ℚ :=
  match p.rbi with
  | some q => if q = 0 then 1 else q
  | none => 1

/-- Truthiness of `play.result?.rbi` on the typed play. -/
def rbiTruthy (p : PlayEvent) : Bool :=
  match p.rbi with
  | some q => q != 0
  | none => false

/-- One loop iteration of extractStatFromPlays over the (batting, pitching)
accumulator objects. -/
def playsStep (playerId : ℤ)
    (acc : List (String × JSVal) × List (String × JSVal)) (p : PlayEvent) :
    List (String × JSVal) × List (String × JSVal) :=
  let bat := acc.1
  let bat :=
    if p.batterId = some playerId then
      let bat :=
        if p.eventType = some "single" then bumpF (bumpF bat "singles" 1) "hits" 1
        else if p.eventType = some "double" then bumpF (bumpF bat "doubles" 1) "hits" 1
        else if p.eventType = some "triple" then bumpF (bumpF bat "triples" 1) "hits" 1
        else if p.eventType = some "home_run" then
          bumpF (bumpF (bumpF bat "home_runs" 1) "hits" 1) "rbis" (rbiOr1 p)
        else if p.eventType = some "walk" ∨ p.eventType = some "intent_walk" then
          bumpF bat "base_on_balls" 1
        else if p.eventType = some "strikeout" then bumpF bat "strikeouts" 1
        else if p.eventType = some "hit_by_pitch" then bumpF bat "hit_by_pitch" 1
        else bat
      let bat := if rbiTruthy p then bumpF bat "rbis" (p.rbi.getD 0) else bat
      let bat :=
        if ((p.awayScore.getD 0) > 0 ∨ (p.homeScore.getD 0) > 0)
            ∧ (p.runners.getD []).any (fun r => r.isScoringEvent) then
          bumpF bat "runs" 1
        else bat
      let bat :=
        if (p.runners.getD []).any (fun r => r.event = some "stolen_base") then
          bumpF bat "stolen_bases" 1
        else bat
      bat
    else bat
  let pit := acc.2
  let pit :=
    if p.pitcherId = some playerId then
      let pit :=
        if p.eventType = some "strikeout" then bumpF pit "strikeouts" 1
        else if p.eventType = some "walk" ∨ p.eventType = some "intent_walk" then
          bumpF pit "walks_allowed" 1
        else if p.eventType = some "hit_by_pitch" then bumpF pit "hit_batters" 1
        else if p.eventType = some "single" ∨ p.eventType = some "double"
            ∨ p.eventType = some "triple" ∨ p.eventType = some "home_run" then
          bumpF pit "hits_allowed" 1
        else pit
      let pit := if rbiTruthy p then bumpF pit "earned_runs" (p.rbi.getD 0) else pit
      let outs := p.outs.getD 0
      let pit := if outs > 0 then bumpF pit "outs_recorded" outs else pit
      pit
    else pit
  (bat, pit)

/-- extractStatFromPlays from extractStatFromPlays.js: tally the plays where
the player is the batter or the pitcher into a
`{batting: {...}, pitching: {...}}` map (note: no `stats` key). -/
def extractStatFromPlays (plays : List PlayEvent) (playerId : ℤ) : JSVal :=
  let acc := plays.foldl (playsStep playerId) ([], [])
  .obj [("batting", .obj acc.1), ("pitching", .obj acc.2)]

/-!
getStatFromLiveFeed.js and resolveStatForPlayer (statResolvers.js), with the
two network fetches turned into parameters: the boxscore player object and
the live-feed play list.
-/

/-- The PITCHING_PROPS set of getStatFromLiveFeed.js. -/
def PITCHING_PROPS : List String :=
  ["strikeouts_pitching", "walks_allowed", "earned_runs", "outs_recorded",
   "hits_allowed"]

/-- The computation of getStatFromLiveFeed.js after the fetch: `none` for
`plays` models a malformed feed (not an array), returning null.  The play
tally is passed to flattenPlayerBoxscore, the batting or pitching field of
the flattened result is scoped by PITCHING_PROPS membership, and
derivePropValue is run on the scoped block; a thrown extraction error is
caught by the surrounding try and becomes null. -/
def getStatFromLiveFeedCore (plays : Option (List PlayEvent)) (playerId : ℤ)
    (propType : String) : JSVal :=
  let normalized := normalizePropType propType
  match plays with
  | none => .null
  | some ps =>
    let statMap := extractStatFromPlays ps playerId
    let flat := flattenPlayerBoxscore statMap .undef
    let scopedStats : JSVal :=
      if PITCHING_PROPS.contains normalized then
        .obj [("pitching", nullishD (getField flat "pitching") (.obj []))]
      else
        .obj [("batting", nullishD (getField flat "batting") (.obj []))]
    match derivePropValue normalized scopedStats with
    | some v => v
    | none => .null

structure ResolveResult where
  result : JSVal
  source : String
  rawStats : JSVal
deriving DecidableEq, Repr

/-- resolveStatForPlayer from statResolvers.js with the fetches as
parameters: `boxscoreData` is the player object found in the boxscore (or
undefined/null when missing or failed), and `plays` the live-feed play
list.  A falsy boxscoreData returns source "no_boxscore" without attempting
the fallback.  The outer `none` models the uncaught TypeError that
hasMeaningfulStats can throw; a derivePropValue throw on the primary path is
caught by the source's try and falls through to the live fallback.  The
fallback result is only adopted when it is of JS number type (source
"live"), otherwise the result is undefined with source "missing". -/
def resolveStatForPlayerCore (boxscoreData : JSVal)
    (plays : Option (List PlayEvent)) (playerId : ℤ) (propType : String) :
    Option ResolveResult :=
  if !truthy boxscoreData then some ⟨.undef, "no_boxscore", .undef⟩
  else
    let rawStats := flattenPlayerBoxscore boxscoreData .undef
    match hasMeaningfulStats rawStats with
    | none => none
    | some mean =>
      let primary : Option JSVal :=
        if mean then
          match derivePropValue propType rawStats with
          | some v => if !isNullish v then some v else none
          | none => none
        else none
      match primary with
      | some v => some ⟨v, "boxscore", rawStats⟩
      | none =>
        let liveResult := getStatFromLiveFeedCore plays playerId propType
        if isNumber liveResult then some ⟨liveResult, "live", rawStats⟩
        else some ⟨.undef, "missing", rawStats⟩

/-!
mlb/backend/scripts/shared/getDerivedStats.js — the in-code fallback
computation for one `d{days}_{propType}` key in "history" source mode
(lines 42-59).  Dates are modelled by their numeric value (`new Date`
comparisons are numeric); an unparseable date is `none`, and `NaN >= now`
is false, so such a row is not skipped by the date check.  The loop reads
`fromDate` nowhere: the only date test is `rowDate >= now → continue`.
-/

structure HistRow where
  /-- Numeric value of `new Date(row.game_date)`; none for an invalid date. -/
  game_date : Option ℤ
  prop_type : String
  prop_value : JSVal
deriving DecidableEq, Repr

/-- The `rowDate >= now` test (false when the date is invalid, as NaN
comparisons are). -/
def dateGE (d : Option ℤ) (now : ℤ) : Bool :=
  match d with
  | some x => now ≤ x
  | none => false

/-- One iteration of the history-mode fallback loop: skip rows dated `>= now`
or of another prop type; accumulate finite prop_values into (total, count). -/
def histStep (now : ℤ) (propType : String) (acc : ℚ × ℕ) (row : HistRow) :
    ℚ × ℕ :=
  if dateGE row.game_date now then acc
  else if row.prop_type ≠ propType then acc
  else
    match row.prop_value with
    | .num (.fin q) => (acc.1 + q, acc.2 + 1)
    | _ => acc

/-- The history-mode fallback average of getDerivedStats.js for one key:
`total / count` when count > 0, otherwise no value.  (The source computes
`fromDate = now - days` just above this loop but never consults it here, so
the function has no window-size parameter to receive.) -/
def historyAvg (now : ℤ) (propType : String) (history : List HistRow) :
    Option ℚ :=
  let tc := history.foldl (histStep now propType) (0, 0)
  if tc.2 > 0 then some (tc.1 / tc.2) else none

/-!
mlb/backend/scripts/generateBvpStats.js — computeBvpStats (lines 317-378).
The per-play switch and the non-at-bat list are rendered as per-field
conditional increments; every field advances by an amount determined by the
play alone.
-/

structure BvpTotals where
  pa : ℚ
  ab : ℚ
  hits : ℚ
  home_runs : ℚ
  strikeouts : ℚ
  walks : ℚ
  rbi : ℚ
  total_bases : ℚ
deriving DecidableEq, Repr

theorem BvpTotals.ext2 {a b : BvpTotals} (h1 : a.pa = b.pa) (h2 : a.ab = b.ab)
    (h3 : a.hits = b.hits) (h4 : a.home_runs = b.home_runs)
    (h5 : a.strikeouts = b.strikeouts) (h6 : a.walks = b.walks)
    (h7 : a.rbi = b.rbi) (h8 : a.total_bases = b.total_bases) : a = b := by
  cases a; cases b; simp_all

/-- `play.result?.rbi || 0`. -/
def rbiOr0 (p : PlayEvent) : ℚ :=
  match p.rbi with
  | some q => q
  | none => 0

/-- One iteration of the computeBvpStats loop: a play with no (or empty)
eventType is skipped entirely; otherwise pa always increments, ab unless the
event is in the non-at-bat list, and the hit/walk/strikeout/total-base
columns per the event type; rbi adds `play.result?.rbi || 0`. -/
def bvpStep (acc : BvpTotals) (p : PlayEvent) : BvpTotals :=
  match p.eventType with
  | none => acc
  | some ev =>
    if ev = "" then acc
    else
      { pa := acc.pa + 1
        ab := acc.ab + (if ev = "walk" ∨ ev = "hit_by_pitch" ∨ ev = "sac_bunt"
            ∨ ev = "sac_fly" ∨ ev = "catcher_interf" then 0 else 1)
        hits := acc.hits + (if ev = "single" ∨ ev = "double" ∨ ev = "triple"
            ∨ ev = "home_run" then 1 else 0)
        home_runs := acc.home_runs + (if ev = "home_run" then 1 else 0)
        strikeouts := acc.strikeouts + (if ev = "strikeout" then 1 else 0)
        walks := acc.walks + (if ev = "walk" then 1 else 0)
        rbi := acc.rbi + rbiOr0 p
        total_bases := acc.total_bases + (if ev = "single" then 1
            else if ev = "double" then 2 else if ev = "triple" then 3
            else if ev = "home_run" then 4 else 0) }

/-- computeBvpStats from generateBvpStats.js: filter the plays to the exact
batter/pitcher pair, return null when none match, else the tallied totals. -/
def computeBvpStats (batterId pitcherId : ℤ) (allPlays : List PlayEvent) :
    Option BvpTotals :=
  let relevantPlays := allPlays.filter
    (fun p => p.batterId = some batterId ∧ p.pitcherId = some pitcherId)
  if relevantPlays.length = 0 then none
  else some (relevantPlays.foldl bvpStep ⟨0, 0, 0, 0, 0, 0, 0, 0⟩)

/-!
The two streak computations.  Rows carry the fields the scripts read; the
player_id is a string (the scripts compare it against "None" and use it as
a key), and game_date is the numeric date value used by the sort
comparator.
-/

structure TrainRow where
  player_id : String
  prop_type : String
  prop_source : String
  outcome : String
  game_date : Option ℤ
deriving DecidableEq, Repr

structure StreakRow where
  player_id : String
  prop_type : String
  prop_source : String
  streak_type : String
  streak_count : ℕ
deriving DecidableEq, Repr

/-- mapOutcomeToStreakType from runStreakBackfillFromTraining.js. -/
def mapOutcomeToStreakType (outcome : String) : String :=
  if outcome = "win" then "hot"
  else if outcome = "loss" then "cold"
  else "neutral"

/-- computeStreaks from runStreakBackfillFromTraining.js.  The loop walks
the props array from index 0 (the most recent row, as the caller orders
game_date descending) to the end, resetting the running count at each
outcome change and never stopping early; the pair surviving the loop is
whatever run ends at the array's last element.  One row keyed by props[0]
is emitted when that surviving type is win or loss. -/
def computeStreaksBackfill (props : List TrainRow) : List StreakRow :=
  let final := (props.enum).foldl
    (fun (acc : ℕ × Option String) (ip : ℕ × TrainRow) =>
      if ¬ (ip.2.outcome = "win" ∨ ip.2.outcome = "loss") then acc
      else if ip.1 = 0 ∨ some ip.2.outcome = acc.2 then (acc.1 + 1, some ip.2.outcome)
      else (1, some ip.2.outcome))
    (0, none)
  match props.head? with
  | none => []
  | some last =>
    if (final.2 = some "win" ∨ final.2 = some "loss") ∧ final.1 > 0 then
      [⟨last.player_id, normalizePropType last.prop_type, last.prop_source,
        mapOutcomeToStreakType (final.2.getD ""), final.1⟩]
    else []

/-- Numeric value used by the sort comparator
`new Date(a.game_date) - new Date(b.game_date)`; an invalid date is taken
as 0 (the comparator's NaN behaviour is engine-defined; the scenarios below
use valid, distinct dates). -/
def dateVal (r : TrainRow) : ℤ := r.game_date.getD 0

/-- Stable insertion of a row into a date-ascending list (a row with an
equal date goes after the existing ones, matching a stable sort). -/
def insertByDate (e : TrainRow) : List TrainRow → List TrainRow
  | [] => [e]
  | x :: xs => if dateVal e < dateVal x then e :: x :: xs else x :: insertByDate e xs

/-- Stable date-ascending sort, modelling `entries.sort((a, b) =>
new Date(a.game_date) - new Date(b.game_date))`. -/
def sortByDate (l : List TrainRow) : List TrainRow := l.foldr insertByDate []

/-- Append an entry to its group, or open a new group at the end (JS object
string keys preserve insertion order). -/
def addToGroup (acc : List (String × List TrainRow)) (key : String)
    (e : TrainRow) : List (String × List TrainRow) :=
  if (acc.find? (fun g => g.1 == key)).isSome then
    acc.map (fun g => if g.1 == key then (g.1, g.2 ++ [e]) else g)
  else acc ++ [(key, [e])]

/-- computeStreaks from generatePlayerStreakProfiles.js: group rows by
player/prop/source (normalizing the prop type and skipping falsy or "None"
player ids), drop groups with fewer than two rows, sort each group by
game_date ascending, and walk it front to back resetting at each change —
so the surviving run is the one ending at the newest row. -/
def computeStreaksProfiles (resolvedProps : List TrainRow) : List StreakRow :=
  let grouped := resolvedProps.foldl
    (fun acc row =>
      if row.player_id = "" ∨ row.player_id = "None" then acc
      else
        let pt := normalizePropType row.prop_type
        let key := row.player_id ++ "_" ++ pt ++ "_" ++ row.prop_source
        addToGroup acc key { row with prop_type := pt })
    []
  grouped.foldl
    (fun acc g =>
      if g.2.length < 2 then acc
      else
        let sorted := sortByDate g.2
        let final := sorted.foldl
          (fun (st : Option String × ℕ) e =>
            match st.1 with
            | none => (some (if e.outcome = "win" then "hot" else "cold"), 1)
            | some t =>
                if (t = "hot" ∧ e.outcome = "win") ∨ (t = "cold" ∧ e.outcome = "loss") then
                  (some t, st.2 + 1)
                else (some (if e.outcome = "win" then "hot" else "cold"), 1))
          (none, 0)
        match sorted.getLast? with
        | none => acc
        | some fin2 =>
            acc ++ [⟨fin2.player_id, fin2.prop_type, fin2.prop_source,
              final.1.getD "", final.2⟩])
    []

/-!
Spec-side definitions and helper lemmas.
-/

/-- Amended grading contract, stated from the amended claim: invalid iff the
value or line is not of JS number type or the direction is not a non-empty
string; push on strict numeric equality; win for over/greater or
under/less after lowercasing the direction; loss in every other case,
including direction strings other than over/under. -/
def gradeAmended (actual line overUnder : JSVal) : String :=
  match actual, line, overUnder with
  | .num a, .num l, .str d =>
      if d = "" then "invalid"
      else if jnumEq a l then "push"
      else if (lowerStr d == "over" && jnumGT a l)
           || (lowerStr d == "under" && jnumLT a l) then "win"
      else "loss"
  | _, _, _ => "invalid"

theorem lowerStr_eq_empty_iff (s : String) : lowerStr s = "" ↔ s = "" := by
  constructor
  · intro h
    have h2 : s.data.map Char.toLower = [] := congrArg String.data h
    have h3 : s.data = [] := List.map_eq_nil_iff.mp h2
    exact String.ext h3
  · intro h; subst h; rfl

/-- Spec-side participation predicate, following the claim's words: some
numeric field under batting or pitching is present and strictly greater
than zero. -/
def specParticipate (stats : JSVal) : Bool :=
  match stats with
  | .obj _ => somePosVals (getField stats "batting") || somePosVals (getField stats "pitching")
  | _ => false

theorem truthy_jsAnd_somePos (v : JSVal) :
    truthy (jsAnd v (.bool (somePosVals v))) = somePosVals v := by
  cases v <;> simp only [jsAnd, somePosVals, truthy] <;> split_ifs <;> simp_all [truthy]

theorem jsAnd_somePos_eq_true_iff (v : JSVal) :
    jsAnd v (.bool (somePosVals v)) = .bool true ↔ somePosVals v = true := by
  cases v <;> simp only [jsAnd, somePosVals, truthy] <;> split_ifs <;> simp_all [truthy]

theorem jsnum_shape (v : JSVal) :
    jsnum v = .null ∨ ∃ q, jsnum v = .num (.fin q) := by
  cases v with
  | undef => exact Or.inl rfl
  | null => exact Or.inl rfl
  | num n => cases h : toNumber (JSVal.num n) <;> simp [jsnum, h]
  | str s => cases h : toNumber (JSVal.str s) <;> simp [jsnum, h]
  | bool b => cases h : toNumber (JSVal.bool b) <;> simp [jsnum, h]
  | obj f => cases h : toNumber (JSVal.obj f) <;> simp [jsnum, h]

theorem ipOutsRes_shape (w : JNum) (frac : ℚ) :
    ipOutsRes w frac = .null ∨ (∃ q, ipOutsRes w frac = .num (.fin q))
      ∨ ipOutsRes w frac = .num .inf ∨ ipOutsRes w frac = .num .ninf := by
  cases w <;> simp [ipOutsRes]

theorem ipToOuts_shape (v : JSVal) :
    ipToOuts v = .null ∨ (∃ q, ipToOuts v = .num (.fin q))
      ∨ ipToOuts v = .num .inf ∨ ipToOuts v = .num .ninf := by
  cases v with
  | undef => exact Or.inl rfl
  | null => exact Or.inl rfl
  | num n => simp only [ipToOuts]; exact ipOutsRes_shape _ _
  | str s => simp only [ipToOuts]; exact ipOutsRes_shape _ _
  | bool b => simp only [ipToOuts]; exact ipOutsRes_shape _ _
  | obj f => simp only [ipToOuts]; exact ipOutsRes_shape _ _

theorem shape_lift {x : JSVal} {P : Prop}
    (h : x = .null ∨ ∃ q, x = .num (.fin q)) :
    x = .null ∨ (∃ q, x = .num (.fin q)) ∨ P :=
  h.imp id Or.inl

theorem nullishD_outs_shape {a b : JSVal} {P : Prop} (hp : P)
    (ha : a = .null ∨ ∃ q, a = .num (.fin q))
    (hb : b = .null ∨ (∃ q, b = .num (.fin q)) ∨ b = .num .inf ∨ b = .num .ninf) :
    nullishD a b = .null ∨ (∃ q, nullishD a b = .num (.fin q))
      ∨ (P ∧ (nullishD a b = .num .inf ∨ nullishD a b = .num .ninf)) := by
  rcases ha with ha | ⟨q, ha⟩
  · subst ha
    simp only [nullishD]
    rcases hb with h | ⟨q, h⟩ | h | h
    · exact Or.inl h
    · exact Or.inr (Or.inl ⟨q, h⟩)
    · exact Or.inr (Or.inr ⟨hp, Or.inl h⟩)
    · exact Or.inr (Or.inr ⟨hp, Or.inr h⟩)
  · subst ha; exact Or.inr (Or.inl ⟨q, rfl⟩)

/-!
Claim theorems.
-/

/-- C2 (amended): determineStatus is invalid exactly when the resolved
value or the line is not of JS number type or the direction is not a
non-empty string; with numeric inputs and any non-empty direction string it
is push on strict equality, win iff the lowercased direction is "over" with
value > line or "under" with value < line, and loss otherwise — an
unrecognized direction string such as "banana" is not rejected as invalid. -/
theorem C2_grader_amended (actual line overUnder : JSVal) :
    determineStatus actual line overUnder = gradeAmended actual line overUnder := by
  cases actual <;> cases line <;> cases overUnder <;>
    simp [determineStatus, gradeAmended, truthy, isNumber, jsStrictEq, toNumber,
      lowerStr_eq_empty_iff]

/-- C2 (counterexample to the claim as stated): the direction "banana" is
not a well-formed over/under enum, so the claim requires "invalid"; the
code returns "loss" for 2 vs line 1, and even "push" when the value equals
the line. -/
theorem C2_grader_counterexample :
    determineStatus (.num (.fin 2)) (.num (.fin 1)) (.str "banana") = "loss"
    ∧ determineStatus (.num (.fin 1)) (.num (.fin 1)) (.str "banana") = "push" := by
  exact ⟨by decide, by decide⟩

/-- C6 (amended): didPlayerParticipate yields the JS value true exactly
when some field under batting or pitching is a number strictly greater
than zero, and its truthiness agrees with that predicate; a block with
only absent or zero fields yields a falsy value (false or undefined),
never true. -/
theorem C6_participation_amended (stats : JSVal) :
    ((didPlayerParticipate stats = .bool true) ↔ specParticipate stats = true)
    ∧ truthy (didPlayerParticipate stats) = specParticipate stats := by
  cases stats with
  | obj fields =>
      have hx1 := truthy_jsAnd_somePos (getField (.obj fields) "batting")
      have hx2 := jsAnd_somePos_eq_true_iff (getField (.obj fields) "batting")
      have hy1 := truthy_jsAnd_somePos (getField (.obj fields) "pitching")
      have hy2 := jsAnd_somePos_eq_true_iff (getField (.obj fields) "pitching")
      simp only [didPlayerParticipate, specParticipate, jsOr]
      by_cases hb : somePosVals (getField (.obj fields) "batting") <;>
        by_cases hp : somePosVals (getField (.obj fields) "pitching") <;>
          simp_all
  | undef => simp [didPlayerParticipate, specParticipate, truthy]
  | null => simp [didPlayerParticipate, specParticipate, truthy]
  | num n => simp [didPlayerParticipate, specParticipate, truthy]
  | str s => simp [didPlayerParticipate, specParticipate, truthy]
  | bool b => simp [didPlayerParticipate, specParticipate, truthy]

/-- C6 (counterexample to the claim as stated): an entirely empty stats
block must yield false per the claim, but the code returns undefined (the
short-circuit value of the missing batting sub-block), which is not the
boolean false. -/
theorem C6_participation_counterexample :
    didPlayerParticipate (.obj []) = .undef ∧ JSVal.undef ≠ JSVal.bool false := by
  exact ⟨by decide, by decide⟩

set_option maxHeartbeats 1000000 in
/-- C10 (amended): extractStatForPropType is total and exception-free; for
every argument value and every prop type it returns null or a number of the
JS number type, and that number is finite — except that the outs_recorded
and pitching_outs cases can propagate an infinite (never NaN) value through
the innings-pitched fallback.  It never returns undefined, a string, a
boolean or an object. -/
theorem C10_extract_total_amended (stats : JSVal) (propType : String) :
    extractStatForPropType stats propType = .null
      ∨ (∃ q, extractStatForPropType stats propType = .num (.fin q))
      ∨ ((propType = "outs_recorded" ∨ propType = "pitching_outs")
          ∧ (extractStatForPropType stats propType = .num .inf
             ∨ extractStatForPropType stats propType = .num .ninf)) := by
  cases stats with
  | obj fields =>
      simp only [extractStatForPropType]
      by_cases h1 : propType = "hits"
      · rw [if_pos h1]; exact shape_lift (jsnum_shape _)
      rw [if_neg h1]
      by_cases h2 : propType = "strikeouts_batting"
      · rw [if_pos h2]; exact shape_lift (jsnum_shape _)
      rw [if_neg h2]
      by_cases h3 : propType = "home_runs"
      · rw [if_pos h3]; exact shape_lift (jsnum_shape _)
      rw [if_neg h3]
      by_cases h4 : propType = "rbis"
      · rw [if_pos h4]; exact shape_lift (jsnum_shape _)
      rw [if_neg h4]
      by_cases h5 : propType = "runs" ∨ propType = "runs_scored"
      · rw [if_pos h5]; exact shape_lift (jsnum_shape _)
      rw [if_neg h5]
      by_cases h6 : propType = "walks"
      · rw [if_pos h6]; exact shape_lift (jsnum_shape _)
      rw [if_neg h6]
      by_cases h7 : propType = "stolen_bases"
      · rw [if_pos h7]; exact shape_lift (jsnum_shape _)
      rw [if_neg h7]
      by_cases h8 : propType = "doubles"
      · rw [if_pos h8]; exact shape_lift (jsnum_shape _)
      rw [if_neg h8]
      by_cases h9 : propType = "triples"
      · rw [if_pos h9]; exact shape_lift (jsnum_shape _)
      rw [if_neg h9]
      by_cases h10 : propType = "total_bases"
      · rw [if_pos h10]; exact shape_lift (jsnum_shape _)
      rw [if_neg h10]
      by_cases h11 : propType = "singles"
      · rw [if_pos h11]; exact Or.inr (Or.inl ⟨_, rfl⟩)
      rw [if_neg h11]
      by_cases h12 : propType = "hits_runs_rbis"
      · rw [if_pos h12]; exact Or.inr (Or.inl ⟨_, rfl⟩)
      rw [if_neg h12]
      by_cases h13 : propType = "runs_rbis"
      · rw [if_pos h13]; exact Or.inr (Or.inl ⟨_, rfl⟩)
      rw [if_neg h13]
      by_cases h14 : propType = "strikeouts_pitching"
      · rw [if_pos h14]; exact shape_lift (jsnum_shape _)
      rw [if_neg h14]
      by_cases h15 : propType = "outs_recorded" ∨ propType = "pitching_outs"
      · rw [if_pos h15]
        exact nullishD_outs_shape h15 (jsnum_shape _) (ipToOuts_shape _)
      rw [if_neg h15]
      by_cases h16 : propType = "earned_runs"
      · rw [if_pos h16]; exact shape_lift (jsnum_shape _)
      rw [if_neg h16]
      by_cases h17 : propType = "hits_allowed"
      · rw [if_pos h17]; exact shape_lift (jsnum_shape _)
      rw [if_neg h17]
      by_cases h18 : propType = "walks_allowed"
      · rw [if_pos h18]; exact shape_lift (jsnum_shape _)
      rw [if_neg h18]
      by_cases h19 : propType = "pitch_count"
      · rw [if_pos h19]; exact shape_lift (jsnum_shape _)
      rw [if_neg h19]
      by_cases h20 : propType = "runs_allowed"
      · rw [if_pos h20]; exact shape_lift (jsnum_shape _)
      rw [if_neg h20]
      exact Or.inl rfl
  | undef => exact Or.inl rfl
  | null => exact Or.inl rfl
  | num n => exact Or.inl rfl
  | str s => exact Or.inl rfl
  | bool b => exact Or.inl rfl

/-- C10 (counterexample to the claim as stated): the claim demands a finite
number or null for every input, with non-finite values normalized to null;
but an inningsPitched field whose string form is "Infinity" flows through
ipToOuts as Infinity * 3 + 0 and extractStatForPropType returns the
non-finite number Infinity for outs_recorded. -/
theorem C10_extract_total_counterexample :
    extractStatForPropType
      (.obj [("pitching", .obj [("inningsPitched", .str "Infinity")])])
      "outs_recorded" = .num .inf := by
  decide

/-- The prop types with a case in extractStatForPropType's switch, in
source order.  (This is a strict superset of VALID_PROP_TYPES: the switch
also accepts runs_scored, hits_runs_rbis and runs_rbis.) -/
def extractHandledTypes : List String :=
  ["hits", "strikeouts_batting", "home_runs", "rbis", "runs", "runs_scored",
   "walks", "stolen_bases", "doubles", "triples", "total_bases", "singles",
   "hits_runs_rbis", "runs_rbis", "strikeouts_pitching", "outs_recorded",
   "pitching_outs", "earned_runs", "hits_allowed", "walks_allowed",
   "pitch_count", "runs_allowed"]

/-- The prop types with a case in derivePropValue's switch, in source
order. -/
def deriveHandledTypes : List String :=
  ["hits", "runs", "runs_scored", "rbis", "home_runs", "stolen_bases",
   "walks", "strikeouts_batting", "total_bases", "hits_runs_rbis",
   "runs_rbis", "singles", "doubles", "triples", "strikeouts_pitching",
   "walks_allowed", "hits_allowed", "earned_runs", "outs_recorded"]

set_option maxHeartbeats 1000000 in
/-- C5 (amended): a prop type outside the handled set is rejected at the
extractor boundary with a nullish value and never an exception or a
coerced number — extractStatForPropType returns null, while derivePropValue
returns undefined (its default case is a bare `return;`). -/
theorem C5_unknown_prop_amended (stats : JSVal) (propType : String)
    (hx : propType ∉ extractHandledTypes) (hd : propType ∉ deriveHandledTypes) :
    extractStatForPropType stats propType = .null
    ∧ derivePropValue propType stats = some .undef := by
  simp only [extractHandledTypes, List.mem_cons, List.not_mem_nil, or_false,
    not_or] at hx
  obtain ⟨e1, e2, e3, e4, e5, e6, e7, e8, e9, e10, e11, e12, e13, e14, e15,
    e16, e17, e18, e19, e20, e21, e22⟩ := hx
  simp only [deriveHandledTypes, List.mem_cons, List.not_mem_nil, or_false,
    not_or] at hd
  obtain ⟨d1, d2, d3, d4, d5, d6, d7, d8, d9, d10, d11, d12, d13, d14, d15,
    d16, d17, d18, d19⟩ := hd
  constructor
  · cases stats with
    | obj fields =>
        simp only [extractStatForPropType]
        rw [if_neg e1, if_neg e2, if_neg e3, if_neg e4,
          if_neg (not_or.mpr ⟨e5, e6⟩), if_neg e7, if_neg e8, if_neg e9,
          if_neg e10, if_neg e11, if_neg e12, if_neg e13, if_neg e14,
          if_neg e15, if_neg (not_or.mpr ⟨e16, e17⟩), if_neg e18, if_neg e19,
          if_neg e20, if_neg e21, if_neg e22]
    | undef => rfl
    | null => rfl
    | num n => rfl
    | str s => rfl
    | bool b => rfl
  · simp only [derivePropValue]
    rw [if_neg d1, if_neg (not_or.mpr ⟨d2, d3⟩), if_neg d4, if_neg d5,
      if_neg d6, if_neg d7, if_neg d8, if_neg d9, if_neg d10, if_neg d11,
      if_neg d12, if_neg d13, if_neg d14, if_neg d15, if_neg d16, if_neg d17,
      if_neg d18, if_neg d19]

/-- C5 (witness): the concrete unknown prop type "proj_xyz" on an empty
stats block is rejected with null by extractStatForPropType and undefined
by derivePropValue. -/
theorem C5_unknown_prop_witness :
    extractStatForPropType (.obj []) "proj_xyz" = .null
    ∧ derivePropValue "proj_xyz" (.obj []) = some .undef :=
  C5_unknown_prop_amended (.obj []) "proj_xyz" (by decide) (by decide)

/-- C5 (counterexample to the claim as stated): the claim says every
unknown prop type returns null; derivePropValue's default branch is a bare
`return;`, so it returns undefined, which is not null. -/
theorem C5_unknown_prop_counterexample :
    derivePropValue "not_a_real_prop" (.obj []) = some .undef
    ∧ JSVal.undef ≠ JSVal.null := by
  exact ⟨by decide, by decide⟩

/-- A batting field that is present with a finite numeric value, or absent. -/
def optF (name : String) (v : Option ℚ) : List (String × JSVal) :=
  match v with
  | some q => [(name, .num (.fin q))]
  | none => []

/-- A stats block with just a batting sub-block. -/
def battingObj (fs : List (String × JSVal)) : JSVal := .obj [("batting", .obj fs)]

set_option maxHeartbeats 2000000 in
/-- C4 (amended): for the composite prop types, extractStatForPropType
treats absent addends as zero unconditionally — singles, hits_runs_rbis and
runs_rbis return the sum or difference of whatever addends are present,
yielding the number 0 (not null) when every addend is absent.  The
all-absent-means-null policy holds only in derivePropValue's
hits_runs_rbis case (null when no addend is of number type, absent addends
coalesced to zero otherwise); derivePropValue's singles and runs_rbis do
raw arithmetic on the field reads and produce NaN whenever an addend is
absent. -/
theorem C4_composite_missing_amended :
    (∀ h d t hr : Option ℚ,
      extractStatForPropType
        (battingObj (optF "hits" h ++ optF "doubles" d ++ optF "triples" t
          ++ optF "homeRuns" hr)) "singles"
        = .num (.fin (h.getD 0 - d.getD 0 - t.getD 0 - hr.getD 0)))
    ∧ (∀ h r i : Option ℚ,
      extractStatForPropType
        (battingObj (optF "hits" h ++ optF "runs" r ++ optF "rbi" i))
        "hits_runs_rbis"
        = .num (.fin (h.getD 0 + r.getD 0 + i.getD 0)))
    ∧ (∀ r i : Option ℚ,
      extractStatForPropType (battingObj (optF "runs" r ++ optF "rbi" i))
        "runs_rbis"
        = .num (.fin (r.getD 0 + i.getD 0)))
    ∧ (∀ h r i : Option ℚ,
      derivePropValue "hits_runs_rbis"
        (battingObj (optF "hits" h ++ optF "runs" r ++ optF "rbi" i))
        = some (if h = none ∧ r = none ∧ i = none then .null
                else .num (.fin (h.getD 0 + r.getD 0 + i.getD 0))))
    ∧ derivePropValue "singles" (battingObj []) = some (.num .nan)
    ∧ derivePropValue "runs_rbis" (battingObj []) = some (.num .nan) := by
  refine ⟨?_, ?_, ?_, ?_, ?_, ?_⟩
  · intro h d t hr
    rcases h with _ | hq <;> rcases d with _ | dq <;> rcases t with _ | tq <;>
      rcases hr with _ | hrq <;> with_unfolding_all rfl
  · intro h r i
    rcases h with _ | hq <;> rcases r with _ | rq <;> rcases i with _ | iq <;>
      with_unfolding_all rfl
  · intro r i
    rcases r with _ | rq <;> rcases i with _ | iq <;> with_unfolding_all rfl
  · intro h r i
    rcases h with _ | hq <;> rcases r with _ | rq <;> rcases i with _ | iq <;>
      with_unfolding_all rfl
  · decide
  · decide

/-- C4 (counterexample to the claim as stated): with every addend absent
the claim requires null, but extractStatForPropType returns the number 0
for singles; and with one addend present (runs = 3) the claim requires the
sum treating absent addends as zero, but derivePropValue returns NaN for
runs_rbis (as it also does with every addend absent). -/
theorem C4_composite_missing_counterexample :
    extractStatForPropType (battingObj []) "singles" = .num (.fin 0)
    ∧ derivePropValue "runs_rbis" (battingObj [("runs", .num (.fin 3))])
        = some (.num .nan)
    ∧ derivePropValue "runs_rbis" (battingObj []) = some (.num .nan) := by
  refine ⟨by with_unfolding_all rfl, by decide, by decide⟩

/-- A history row whose stats carry an outlier value and whose game_date
string lies in the future of any realistic as-of date. -/
def plantedFutureRow : JSVal :=
  .obj [("game_date", .str "2099-01-01"),
        ("stats", .obj [("batting", .obj [("hits", .num (.fin 100))])])]

/-- C1 (amended): the history-mode fallback of getDerivedStats is
leakage-safe — a row whose parsed game_date is greater than or equal to the
as-of date contributes to neither the sum nor the count, so planting such a
row anywhere in the history leaves the rolling average unchanged.  (The
count-based getRollingAverage, by contrast, performs no date comparison at
all; see the counterexample.) -/
theorem C1_rolling_leakage_amended (now : ℤ) (propType : String)
    (l1 l2 : List HistRow) (r : HistRow) (d : ℤ)
    (hdate : r.game_date = some d) (hge : now ≤ d) :
    historyAvg now propType (l1 ++ r :: l2) = historyAvg now propType (l1 ++ l2) := by
  have hstep : ∀ acc, histStep now propType acc r = acc := by
    intro acc
    simp [histStep, dateGE, hdate, hge]
  simp [historyAvg, List.foldl_append, hstep]

/-- C1 (witness): with as-of date 10, planting a same-dated outlier row
(the boundary case the claim singles out) after a valid prior row does not
change the history-mode average. -/
theorem C1_rolling_leakage_witness :
    (10 : ℤ) ≤ 10
    ∧ historyAvg 10 "hits"
        [⟨some 5, "hits", .num (.fin 2)⟩, ⟨some 10, "hits", .num (.fin 99)⟩]
      = historyAvg 10 "hits" [⟨some 5, "hits", .num (.fin 2)⟩] :=
  ⟨le_refl 10,
   C1_rolling_leakage_amended 10 "hits" [⟨some 5, "hits", .num (.fin 2)⟩] []
     ⟨some 10, "hits", .num (.fin 99)⟩ 10 rfl (le_refl 10)⟩

/-- C1 (counterexample to the claim as stated): the claim says the Rolling
Feature Engine never lets an observation dated on or after the as-of date
contribute, for every player history; but the count-based getRollingAverage
(backend propUtilsBackend.js) never reads any date — planting a row dated
2099-01-01 with an outlier value of 100 into the history changes the
result from null to 100 for every earlier as-of date. -/
theorem C1_rolling_leakage_counterexample :
    getRollingAverage [plantedFutureRow] "hits" 3 = some (.fin 100)
    ∧ getRollingAverage [] "hits" 3 = none := by
  constructor
  · with_unfolding_all rfl
  · decide

/-- C8 (code bug): in history mode the getDerivedStats fallback ignores the
window entirely — the loop body never consults the fromDate computed from
window_days, so with as-of date 200 and window 7 days an observation dated
190 days earlier (day 10 < 200 - 7) is still included in both the sum and
the count, and the d7 average over that single stale row is 5 rather than
the absent value the claim requires. -/
theorem C8_window_bug :
    (10 : ℤ) < 200 - 7
    ∧ historyAvg 200 "hits" [⟨some 10, "hits", .num (.fin 5)⟩] = some 5 := by
  constructor
  · decide
  · with_unfolding_all rfl

/-- A boxscore player object for player 123 whose stats block is missing
entirely. -/
def c3Boxscore : JSVal := .obj [("person", .obj [("id", .num (.fin 123))])]

/-- A live-feed play log containing exactly one single and one strikeout
with player 123 as the batter. -/
def c3Plays : List PlayEvent :=
  [⟨some 123, some 456, some "single", none, none, none, none, none⟩,
   ⟨some 123, some 456, some "strikeout", none, none, none, none, none⟩]

/-- C3 (code bug): with the primary stats block missing (a boxscore player
object with no stats) and a play log holding one single and one strikeout
by the player as batter, the claim requires the Resolution Chain to return
value 1 from the fallback; instead the fallback always loses the play
tallies — getStatFromLiveFeed passes the `{batting, pitching}` tally map to
flattenPlayerBoxscore, which reads its absent `stats` key, so derivePropValue
sees an empty batting block and yields undefined — and the chain returns
result undefined with source "missing".  When the boxscore fetch yields
nothing at all, the chain does not even attempt the fallback: it returns
source "no_boxscore" directly. -/
theorem C3_resolution_fallback_bug :
    getStatFromLiveFeedCore (some c3Plays) 123 "hits" = .undef
    ∧ (resolveStatForPlayerCore c3Boxscore (some c3Plays) 123 "hits").map
        (fun r => (r.result, r.source)) = some (.undef, "missing")
    ∧ (resolveStatForPlayerCore .undef (some c3Plays) 123 "hits").map
        (fun r => (r.result, r.source)) = some (.undef, "no_boxscore") := by
  refine ⟨by decide, by decide, by decide⟩

/-- The most-recent-first outcome sequence win, win, loss, win of the
claim's scenario, with game dates descending as both callers order them. -/
def c7Rows : List TrainRow :=
  [⟨"p1", "hits", "mlb_api", "win", some 4⟩,
   ⟨"p1", "hits", "mlb_api", "win", some 3⟩,
   ⟨"p1", "hits", "mlb_api", "loss", some 2⟩,
   ⟨"p1", "hits", "mlb_api", "win", some 1⟩]

/-- C7 (code bug): on the most-recent-first sequence win, win, loss, win
the claim (and the streak-profile generator, which sorts ascending and
keeps the run ending at the newest row) gives a hot streak of 2; the
backfill script's computeStreaks walks the descending array without
stopping at the first change, so the run that survives its loop is the one
ending at the oldest row and it stores a hot streak of 1. -/
theorem C7_streak_bug :
    computeStreaksBackfill c7Rows = [⟨"p1", "hits", "mlb_api", "hot", 1⟩]
    ∧ computeStreaksProfiles c7Rows = [⟨"p1", "hits", "mlb_api", "hot", 2⟩] := by
  refine ⟨by decide, by decide⟩

/-- The per-play contribution determined by the play's event type (zero for
a play skipped by the `if (!result) continue` guard). -/
def evDelta (p : PlayEvent) (f : String → ℚ) : ℚ :=
  match p.eventType with
  | none => 0
  | some ev => if ev = "" then 0 else f ev

/-- Plate-appearance delta of one play. -/
def paD (p : PlayEvent) : ℚ := evDelta p (fun _ => 1)

/-- At-bat delta of one play. -/
def abD (p : PlayEvent) : ℚ := evDelta p (fun ev =>
  if ev = "walk" ∨ ev = "hit_by_pitch" ∨ ev = "sac_bunt" ∨ ev = "sac_fly"
    ∨ ev = "catcher_interf" then 0 else 1)

/-- Hit delta of one play. -/
def hitsD (p : PlayEvent) : ℚ := evDelta p (fun ev =>
  if ev = "single" ∨ ev = "double" ∨ ev = "triple" ∨ ev = "home_run" then 1 else 0)

/-- Home-run delta of one play. -/
def hrD (p : PlayEvent) : ℚ := evDelta p (fun ev => if ev = "home_run" then 1 else 0)

/-- Strikeout delta of one play. -/
def soD (p : PlayEvent) : ℚ := evDelta p (fun ev => if ev = "strikeout" then 1 else 0)

/-- Walk delta of one play. -/
def walksD (p : PlayEvent) : ℚ := evDelta p (fun ev => if ev = "walk" then 1 else 0)

/-- RBI delta of one play. -/
def rbiD (p : PlayEvent) : ℚ := evDelta p (fun _ => rbiOr0 p)

/-- Total-base delta of one play. -/
def tbD (p : PlayEvent) : ℚ := evDelta p (fun ev =>
  if ev = "single" then 1 else if ev = "double" then 2 else if ev = "triple" then 3
  else if ev = "home_run" then 4 else 0)

theorem bvpStep_pa (acc : BvpTotals) (p : PlayEvent) :
    (bvpStep acc p).pa = acc.pa + paD p := by
  cases h : p.eventType <;> simp [bvpStep, paD, evDelta, h]
  split_ifs <;> simp

theorem bvpStep_ab (acc : BvpTotals) (p : PlayEvent) :
    (bvpStep acc p).ab = acc.ab + abD p := by
  cases h : p.eventType <;> simp [bvpStep, abD, evDelta, h]
  split_ifs <;> simp

theorem bvpStep_hits (acc : BvpTotals) (p : PlayEvent) :
    (bvpStep acc p).hits = acc.hits + hitsD p := by
  cases h : p.eventType <;> simp [bvpStep, hitsD, evDelta, h]
  split_ifs <;> simp

theorem bvpStep_hr (acc : BvpTotals) (p : PlayEvent) :
    (bvpStep acc p).home_runs = acc.home_runs + hrD p := by
  cases h : p.eventType <;> simp [bvpStep, hrD, evDelta, h]
  split_ifs <;> simp

theorem bvpStep_so (acc : BvpTotals) (p : PlayEvent) :
    (bvpStep acc p).strikeouts = acc.strikeouts + soD p := by
  cases h : p.eventType <;> simp [bvpStep, soD, evDelta, h]
  split_ifs <;> simp

theorem bvpStep_walks (acc : BvpTotals) (p : PlayEvent) :
    (bvpStep acc p).walks = acc.walks + walksD p := by
  cases h : p.eventType <;> simp [bvpStep, walksD, evDelta, h]
  split_ifs <;> simp

theorem bvpStep_rbi (acc : BvpTotals) (p : PlayEvent) :
    (bvpStep acc p).rbi = acc.rbi + rbiD p := by
  cases h : p.eventType <;> simp [bvpStep, rbiD, evDelta, h]
  split_ifs <;> simp

theorem bvpStep_tb (acc : BvpTotals) (p : PlayEvent) :
    (bvpStep acc p).total_bases = acc.total_bases + tbD p := by
  cases h : p.eventType <;> simp [bvpStep, tbD, evDelta, h]
  split_ifs <;> simp

theorem foldl_bvp_field (f : BvpTotals → ℚ) (g : PlayEvent → ℚ)
    (hfg : ∀ acc p, f (bvpStep acc p) = f acc + g p) :
    ∀ (l : List PlayEvent) (acc : BvpTotals),
      f (l.foldl bvpStep acc) = f acc + (l.map g).sum := by
  intro l
  induction l with
  | nil => intro acc; simp
  | cons x xs ih =>
      intro acc
      simp only [List.foldl_cons, List.map_cons, List.sum_cons]
      rw [ih, hfg, add_assoc]

/-- C9 (confirmed): computeBvpStats is order-independent — for every
batter, pitcher and play list, any permutation of the plays yields the same
result: the null-versus-aggregate decision (no matching play) and every
total (plate appearances, at-bats, hits, home runs, strikeouts, walks, RBI,
total bases) are unchanged, because each play contributes a fixed delta to
each total. -/
theorem C9_bvp_perm (batterId pitcherId : ℤ) (l1 l2 : List PlayEvent)
    (h : l1.Perm l2) :
    computeBvpStats batterId pitcherId l1 = computeBvpStats batterId pitcherId l2 := by
  unfold computeBvpStats
  have hf : (l1.filter fun p =>
      decide (p.batterId = some batterId ∧ p.pitcherId = some pitcherId)).Perm
      (l2.filter fun p =>
      decide (p.batterId = some batterId ∧ p.pitcherId = some pitcherId)) :=
    h.filter _
  have hlen := hf.length_eq
  by_cases hz : (l1.filter fun p =>
      decide (p.batterId = some batterId ∧ p.pitcherId = some pitcherId)).length = 0
  · rw [if_pos hz, if_pos (hlen ▸ hz)]
  · rw [if_neg hz, if_neg (hlen ▸ hz)]
    congr 1
    apply BvpTotals.ext2
    · rw [foldl_bvp_field _ _ bvpStep_pa, foldl_bvp_field _ _ bvpStep_pa,
        (hf.map paD).sum_eq]
    · rw [foldl_bvp_field _ _ bvpStep_ab, foldl_bvp_field _ _ bvpStep_ab,
        (hf.map abD).sum_eq]
    · rw [foldl_bvp_field _ _ bvpStep_hits, foldl_bvp_field _ _ bvpStep_hits,
        (hf.map hitsD).sum_eq]
    · rw [foldl_bvp_field _ _ bvpStep_hr, foldl_bvp_field _ _ bvpStep_hr,
        (hf.map hrD).sum_eq]
    · rw [foldl_bvp_field _ _ bvpStep_so, foldl_bvp_field _ _ bvpStep_so,
        (hf.map soD).sum_eq]
    · rw [foldl_bvp_field _ _ bvpStep_walks, foldl_bvp_field _ _ bvpStep_walks,
        (hf.map walksD).sum_eq]
    · rw [foldl_bvp_field _ _ bvpStep_rbi, foldl_bvp_field _ _ bvpStep_rbi,
        (hf.map rbiD).sum_eq]
    · rw [foldl_bvp_field _ _ bvpStep_tb, foldl_bvp_field _ _ bvpStep_tb,
        (hf.map tbD).sum_eq]

/-- A single by batter 1 against pitcher 2, with one RBI. -/
def bvpPlayA : PlayEvent := ⟨some 1, some 2, some "single", some 1, none, none, none, none⟩

/-- A strikeout of batter 1 by pitcher 2. -/
def bvpPlayB : PlayEvent := ⟨some 1, some 2, some "strikeout", none, none, none, none, none⟩

/-- C9 (witness): swapping two concrete plays of the batter/pitcher pair
leaves the aggregate unchanged. -/
theorem C9_bvp_perm_witness :
    computeBvpStats 1 2 [bvpPlayA, bvpPlayB] = computeBvpStats 1 2 [bvpPlayB, bvpPlayA] :=
  C9_bvp_perm 1 2 [bvpPlayA, bvpPlayB] [bvpPlayB, bvpPlayA]
    (List.Perm.swap bvpPlayB bvpPlayA [])
